import Mathlib

/-!
Verification of maltob/go-netspeed: a Go speedtest server (`main.go`) with a
browser client (`static/speedtest.js`).  The client measures latency,
download/upload throughput, jitter and packet loss; the server streams
deterministic data, echoes WebRTC data-channel packets, and persists result
records in a Badger key-value store.

The embedding below translates the relevant source functions:
  * `calculateJitterLoss` (speedtest.js) — loss % and jitter from RTT samples;
  * `runLatencyTest` (speedtest.js) — mean of successful round trips;
  * `finalizeTest` (speedtest.js) — run finalization, result submission and
    local history, modelled as a state transformer;
  * `downloadHandler` (main.go) — size clamping and the chunked write loop;
  * `BadgerStore.Save` / `BadgerStore.Load` (main.go) — the result store,
    with the key-value database modelled as an association list;
  * the data-channel `OnMessage` echo handler (main.go).

JavaScript numbers and Go float64 fields are modelled as rationals (ℚ):
every arithmetic step the claims mention is exact at the granularity the
spec states it.  Go's int64 values are modelled as ℤ with the source's
comparisons carried over verbatim.
-/

namespace NetSpeed

/-! ## Jitter / loss analyzer (`calculateJitterLoss`, speedtest.js lines 445-471) -/

/-- Result pair produced by `calculateJitterLoss`. -/
structure JitterLossResult where
  lossPercent : ℚ
  jitter : ℚ
  deriving Repr, DecidableEq

/-- The running loop of `calculateJitterLoss`:
`for (let i = 1; i < rtts.length; i++) { sum += Math.abs(rtts[i] - previousRTT); previousRTT = rtts[i]; }`
with `prev` the value of `previousRTT` entering the iteration. -/
def sumDiffsFrom (prev : ℚ) : List ℚ → ℚ
  | [] => 0
  | r :: rs => |r - prev| + sumDiffsFrom r rs

/-- `calculateJitterLoss(rtts, totalPacketsSent)` from speedtest.js:
loss % is `((totalPacketsSent - receivedPackets) / totalPacketsSent) * 100`;
jitter is the loop sum divided by `receivedPackets - 1` when more than one
sample was received, else `0`.  `previousRTT` is initialised to `rtts[0]`
when the list is nonempty (the initialisation to `0` for an empty list is
irrelevant: the loop body never runs then). -/
def calculateJitterLoss (rtts : List ℚ) (totalPacketsSent : ℕ) : JitterLossResult :=
  let receivedPackets := rtts.length
  let lossPercent := ((totalPacketsSent : ℚ) - (receivedPackets : ℚ)) / (totalPacketsSent : ℚ) * 100
  let sumOfDifferences :=
    match rtts with
    | [] => 0
    | r0 :: rest => sumDiffsFrom r0 rest
  let averageJitter :=
    if receivedPackets > 1 then sumOfDifferences / ((receivedPackets : ℚ) - 1) else 0
  { lossPercent := lossPercent, jitter := averageJitter }

/-- The spec's jitter formula: mean of `|sample[i] − sample[i-1]|` over
consecutive received samples, `0` when fewer than two samples. -/
def specJitter (rtts : List ℚ) : ℚ :=
  if rtts.length < 2 then 0
  else (List.zipWith (fun a b => |b - a|) rtts rtts.tail).sum / ((rtts.length : ℚ) - 1)

theorem sumDiffsFrom_eq_zipWith (prev : ℚ) (rs : List ℚ) :
    sumDiffsFrom prev rs = (List.zipWith (fun a b => |b - a|) (prev :: rs) rs).sum := by
  induction rs generalizing prev with
  | nil => simp [sumDiffsFrom]
  | cons r rs ih => simp [sumDiffsFrom, ih r]

/-! ## Latency probe (`runLatencyTest`, speedtest.js lines 291-322)

Each of the `numPings` trips either succeeds with a measured round-trip time
(`some rtt`, pushed onto `latencies`) or fails (`none`, dropped with a console
log).  If `latencies` is empty the test reports failure and leaves
`results.latency` unset; otherwise `results.latency` is set to
`total / latencies.length`. -/

/-- `const numPings = 10;` in `runLatencyTest`. -/
def numPings : ℕ := 10

/-- `runLatencyTest` reduced to its measurement content: from the per-trip
outcomes (in trip order), the value stored into `results.latency`
(`none` = the field is left unset / "not measured"). -/
def runLatencyTest (outcomes : List (Option ℚ)) : Option ℚ :=
  let latencies := outcomes.filterMap id
  if latencies.length = 0 then none
  else some (latencies.sum / (latencies.length : ℚ))

/-! ## Download handler (`downloadHandler`, main.go lines 225-287) -/

/-- `globalMaxDownloadSizeMB = 1024` (main.go line 44). -/
def globalMaxDownloadSizeMB : ℤ := 1024

/-- The size-selection prefix of `downloadHandler` (main.go lines 227-247):
`sizeParam` is `none` when the query parameter is missing or `ParseInt`
fails; a parse error or a value `<= 0` falls back to the 10 MB default; the
value is then capped by the global 1024 MB ceiling and by the
`maxDownloadSize` flag, converted to bytes, and raised to at least 1 MB. -/
def effectiveTotalSize (sizeParam : Option ℤ) (maxDownloadSize : ℤ) : ℤ :=
  let requestedSizeMB :=
    match sizeParam with
    | none => 10
    | some v => if v ≤ 0 then 10 else v
  let requestedSizeMB := if requestedSizeMB > globalMaxDownloadSizeMB then globalMaxDownloadSizeMB else requestedSizeMB
  let requestedSizeMB := if requestedSizeMB > maxDownloadSize then maxDownloadSize else requestedSizeMB
  let totalSize := requestedSizeMB * 1024 * 1024
  if totalSize < 1024 * 1024 then 1024 * 1024 else totalSize

/-- The `maxsize` flag validation in `main` (main.go lines 487-490): a flag
value above the global ceiling is replaced by the ceiling. -/
def validateMaxSize (flagValue : ℤ) : ℤ :=
  if flagValue > globalMaxDownloadSizeMB then globalMaxDownloadSizeMB else flagValue

/-- The chunk-size fallback in `downloadHandler` (main.go lines 254-257):
a non-positive `chunksize` flag falls back to 1 MB. -/
def effectiveChunkSize (downloadChunkSize : ℤ) : ℤ :=
  if downloadChunkSize ≤ 0 then 1024 * 1024 else downloadChunkSize

/-- The write loop of `downloadHandler` (main.go lines 265-282), as the list
of chunk lengths written, assuming every `w.Write` succeeds: while
`sentBytes < totalSize`, write `min chunkSize (totalSize - sentBytes)` bytes.
(The source guards `chunkSize > 0` via the fallback above; the `c = 0` branch
here only serves the termination argument and is never reached from the
handler.) -/
def writeChunks (c : ℕ) (r : ℕ) : List ℕ :=
  if h : r = 0 ∨ c = 0 then []
  else
    let b := min c r
    b :: writeChunks c (r - b)
  termination_by r
  decreasing_by
    push_neg at h
    have hb : 1 ≤ min c r := le_min (Nat.one_le_iff_ne_zero.mpr h.2) (Nat.one_le_iff_ne_zero.mpr h.1)
    omega

/-- Full chunked-write trace of `downloadHandler` for a request: the effective
total size is computed from the query parameter and the validated flag, then
streamed through the write loop. -/
def downloadWriteSizes (sizeParam : Option ℤ) (maxDownloadSize downloadChunkSize : ℤ) : List ℕ :=
  writeChunks (effectiveChunkSize downloadChunkSize).toNat
    (effectiveTotalSize sizeParam maxDownloadSize).toNat

/-! ## Result store (`BadgerStore`, main.go lines 108-146)

The Badger database is modelled as an association list from ids to records;
`txn.Set` prepends (later bindings shadow earlier ones, matching overwrite
semantics) and `txn.Get` is first-match lookup.  `json.Marshal` /
`json.Unmarshal` of a Go struct of five float64 fields and a timestamp is a
faithful round trip (Go emits shortest round-trip float literals), so the
serialized blob is modelled by the record value itself. -/

/-- `TestResult` (main.go lines 63-70). The wall-clock timestamp is a rational
epoch value. -/
structure TestResult where
  timestamp : ℚ
  downloadSpeedMbps : ℚ
  uploadSpeedMbps : ℚ
  latencyMs : ℚ
  jitterMs : ℚ
  packetLossPercent : ℚ
  deriving Repr, DecidableEq

/-- The Badger key space: id → stored record. -/
def BadgerDB := List (String × TestResult)

/-- `BadgerStore.Save` (main.go lines 109-126): with `id` the fresh UUID and
`now` the server clock, overwrite the submitted record's timestamp with
server time and store the record under `id`. Returns the id and the new
database state. -/
def badgerSave (db : BadgerDB) (id : String) (now : ℚ) (result : TestResult) :
    String × BadgerDB :=
  let result := { result with timestamp := now }
  (id, (id, result) :: db)

/-- `BadgerStore.Load` (main.go lines 129-146): first-match lookup;
`none` models the `ErrKeyNotFound` → "result not found" path. -/
def badgerLoad (db : BadgerDB) (id : String) : Option TestResult :=
  match db with
  | [] => none
  | (k, v) :: rest => if k = id then some v else badgerLoad rest id

/-! ## Data-channel echo (`webrtcOfferHandler`, main.go lines 354-359)

`dc.OnMessage` sends back `msg.Data` unchanged.  A payload is a byte
sequence. -/

/-- The body of the server's `OnMessage` handler: the payload passed to
`dc.Send` in response to a received message. -/
def echoOnMessage (msgData : List ℕ) : List ℕ := msgData

/-! ## Client finalization (`finalizeTest`, speedtest.js lines 215-283)

The observable state relevant to finalization: whether the start button is
disabled (the implicit "run in progress" flag), the truthiness of
`results.latency || results.download || results.upload`, and two event
counters — POST requests issued to `/save-result`, and `saveHistory`
invocations.  `finalizeTest(success=true)` issues the `/save-result` fetch
unconditionally; only the `.finally` block guards the history append and the
button re-enable behind `startButton.disabled` (and the results check).  Two
rapid invocations interleave as: both synchronous bodies run (each issuing a
fetch), then each `.finally` runs; the `.finally` guard reads and writes only
`startButton.disabled`, so sequential composition of the whole
body-plus-finally yields the same counters as the browser's interleaving. -/

/-- Client-side state observed by `finalizeTest`. -/
structure ClientState where
  startDisabled : Bool
  resultsNonEmpty : Bool
  savePosts : ℕ
  historyAppends : ℕ
  deriving Repr, DecidableEq

/-- `finalizeTest(success)` as a state transformer.  On `success = false` it
only re-enables the button; on `success = true` it always issues one
`/save-result` POST, then in `.finally` appends to history and re-enables
the button only when the button was still disabled and some result field is
truthy. -/
def finalizeTest (success : Bool) (s : ClientState) : ClientState :=
  if success = false then
    { s with startDisabled := false }
  else
    let s := { s with savePosts := s.savePosts + 1 }
    if s.startDisabled && s.resultsNonEmpty then
      { s with historyAppends := s.historyAppends + 1, startDisabled := false }
    else
      s

/-- A run that is in progress (start button disabled, at least one result
field set) with no finalization events yet. -/
def inProgressRun : ClientState :=
  { startDisabled := true, resultsNonEmpty := true, savePosts := 0, historyAppends := 0 }

/-! ## Final results assembly (`finalizeTest`, speedtest.js lines 231-237)

`finalResults` is built by reading each result field's displayed text and
coercing with `parseFloat(...) || 0`: an unmeasured field displays `N/A`,
`parseFloat('N/A')` is `NaN`, and `NaN || 0` is `0`.  A displayed value is
modelled as `some q`; an `N/A` display as `none`. -/

/-- The five result display fields read by `finalizeTest`. -/
structure DisplayState where
  downloadResult : Option ℚ
  uploadResult : Option ℚ
  latencyResult : Option ℚ
  jitterResult : Option ℚ
  lossResult : Option ℚ
  deriving Repr, DecidableEq

/-- `parseFloat(element.innerText) || 0`: an `N/A` display (no parsed
number) collapses to `0`. -/
def parseFloatOr0 (display : Option ℚ) : ℚ := display.getD 0

/-- The `finalResults` object POSTed to `/save-result` (speedtest.js lines
231-237).  The client sends no timestamp field; Go's JSON decoding leaves
the struct's timestamp zero-valued. -/
def buildFinalResults (d : DisplayState) : TestResult :=
  { timestamp := 0
    downloadSpeedMbps := parseFloatOr0 d.downloadResult
    uploadSpeedMbps := parseFloatOr0 d.uploadResult
    latencyMs := parseFloatOr0 d.latencyResult
    jitterMs := parseFloatOr0 d.jitterResult
    packetLossPercent := parseFloatOr0 d.lossResult }

/-! # Theorems for the claims -/

/-- The jitter computed by `calculateJitterLoss` always agrees with the
spec's formula `specJitter`. -/
theorem jitter_eq_specJitter (rtts : List ℚ) (D : ℕ) :
    (calculateJitterLoss rtts D).jitter = specJitter rtts := by
  match rtts with
  | [] => simp [calculateJitterLoss, specJitter]
  | [r0] => simp [calculateJitterLoss, specJitter]
  | r0 :: r1 :: rest =>
    simp only [calculateJitterLoss, specJitter, sumDiffsFrom_eq_zipWith,
      List.length_cons, List.tail_cons]
    have h2 : ¬ (rest.length + 1 + 1 < 2) := by omega
    have h1 : rest.length + 1 + 1 > 1 := by omega
    simp [h1, h2]

/-- C1: for every call to `calculateJitterLoss` with dispatched count
`D ≥ 1` and received RTT list of length `R ≤ D`, the computed packet-loss
percentage is `(D − R)/D × 100`, and it is `0` when `R = D`. -/
theorem calculateJitterLoss_loss (rtts : List ℚ) (D : ℕ) (hD : 1 ≤ D)
    (hR : rtts.length ≤ D) :
    (calculateJitterLoss rtts D).lossPercent
        = ((D : ℚ) - (rtts.length : ℚ)) / (D : ℚ) * 100 ∧
    (rtts.length = D → (calculateJitterLoss rtts D).lossPercent = 0) := by
  refine ⟨rfl, fun h => ?_⟩
  simp [calculateJitterLoss, h]

/-- Witness for C1 at `rtts = [100, 120, 90]`, `D = 250`: loss is
`(250 − 3)/250 × 100` and with `D = 3` (all received) loss is `0`. -/
theorem calculateJitterLoss_loss_witness :
    (calculateJitterLoss [100, 120, 90] 250).lossPercent
        = ((250 : ℚ) - 3) / 250 * 100 ∧
    (calculateJitterLoss [100, 120, 90] 3).lossPercent = 0 := by
  constructor
  · have h := (calculateJitterLoss_loss [100, 120, 90] 250 (by decide) (by decide)).1
    simpa using h
  · exact (calculateJitterLoss_loss [100, 120, 90] 3 (by decide) (by decide)).2 (by decide)

/-- C2: the computed jitter is `0` when fewer than two RTT samples were
received, otherwise it is the mean of `|rtts[i] − rtts[i−1]|` over
consecutive samples in arrival order (`specJitter`); for `[100, 120, 90]`
the jitter is `25`. -/
theorem calculateJitterLoss_jitter (rtts : List ℚ) (D : ℕ) :
    (rtts.length < 2 → (calculateJitterLoss rtts D).jitter = 0) ∧
    (calculateJitterLoss rtts D).jitter = specJitter rtts ∧
    (calculateJitterLoss [100, 120, 90] 3).jitter = 25 := by
  refine ⟨fun h => ?_, jitter_eq_specJitter rtts D, ?_⟩
  · rw [jitter_eq_specJitter, specJitter, if_pos h]
  · norm_num [calculateJitterLoss, sumDiffsFrom]

/-- Witness for C2 at `rtts = [42]`, `D = 5`: a single sample gives jitter
`0`, and `[100, 120, 90]` gives `25`. -/
theorem calculateJitterLoss_jitter_witness :
    (calculateJitterLoss [42] 5).jitter = 0 ∧
    (calculateJitterLoss [100, 120, 90] 3).jitter = 25 :=
  ⟨(calculateJitterLoss_jitter [42] 5).1 (by decide),
   (calculateJitterLoss_jitter [] 0).2.2⟩

/-- C3 counterexample: from an in-progress run, invoking `finalizeTest`
twice issues TWO POSTs to `/save-result` (the fetch is unconditional), not
one — the result record is not submitted exactly once.  History is appended
once. -/
theorem finalizeTest_double_save_counterexample :
    (finalizeTest true (finalizeTest true inProgressRun)).savePosts = 2 ∧
    ¬ (finalizeTest true (finalizeTest true inProgressRun)).savePosts = 1 ∧
    (finalizeTest true (finalizeTest true inProgressRun)).historyAppends = 1 := by
  decide

/-- C3 (amended): if finalization is invoked twice in rapid succession for
the same in-progress run, the local history is appended exactly once (the
`.finally` guard on the disabled start button makes the history append
idempotent), but the result record is submitted to `/save-result` once per
invocation, i.e. twice. -/
theorem finalizeTest_double (s : ClientState) (hDisabled : s.startDisabled = true)
    (hResults : s.resultsNonEmpty = true) :
    (finalizeTest true (finalizeTest true s)).historyAppends = s.historyAppends + 1 ∧
    (finalizeTest true (finalizeTest true s)).savePosts = s.savePosts + 2 := by
  simp [finalizeTest, hDisabled, hResults]

/-- Witness for C3's amended theorem at the concrete in-progress state. -/
theorem finalizeTest_double_witness :
    (finalizeTest true (finalizeTest true inProgressRun)).historyAppends
        = inProgressRun.historyAppends + 1 ∧
    (finalizeTest true (finalizeTest true inProgressRun)).savePosts
        = inProgressRun.savePosts + 2 :=
  finalizeTest_double inProgressRun (by decide) (by decide)

/-- C4: for a configured `maxsize` flag of at least the 10 MB default (the
shipped default is 100), after `main`'s validation the download handler
maps a missing/unparsable/zero/negative size to exactly the 10 MB default;
a size above `min(configured max, 1024)` to exactly that cap; and every
request to a byte count in `[1 MB, min(configured max, 1024) MB]`. -/
theorem downloadSize_clamp (f : ℤ) (hf : 10 ≤ f) (sizeParam : Option ℤ) :
    ((sizeParam = none ∨ ∃ v, sizeParam = some v ∧ v ≤ 0) →
      effectiveTotalSize sizeParam (validateMaxSize f) = 10 * 1024 * 1024) ∧
    (∀ v, sizeParam = some v → min f globalMaxDownloadSizeMB < v →
      effectiveTotalSize sizeParam (validateMaxSize f)
        = min f globalMaxDownloadSizeMB * 1024 * 1024) ∧
    (1024 * 1024 ≤ effectiveTotalSize sizeParam (validateMaxSize f) ∧
      effectiveTotalSize sizeParam (validateMaxSize f)
        ≤ min f globalMaxDownloadSizeMB * 1024 * 1024) := by
  have hmin : min f globalMaxDownloadSizeMB = validateMaxSize f := by
    simp only [validateMaxSize, globalMaxDownloadSizeMB]
    split <;> omega
  refine ⟨fun h => ?_, fun v hv hcap => ?_, ?_⟩
  · have hdef : (match sizeParam with
        | none => (10 : ℤ)
        | some v => if v ≤ 0 then 10 else v) = 10 := by
      rcases h with h | ⟨v, hv, hv0⟩
      · rw [h]
      · rw [hv]; simp [hv0]
    simp only [effectiveTotalSize, hdef, validateMaxSize, globalMaxDownloadSizeMB]
    split_ifs <;> omega
  · subst hv
    have hg : globalMaxDownloadSizeMB = (1024 : ℤ) := rfl
    rw [hg] at hcap ⊢
    have hvm : validateMaxSize f = min f 1024 := by
      simp only [validateMaxSize, hg]
      split <;> omega
    rw [hvm]
    simp only [effectiveTotalSize, hg]
    rw [if_neg (show ¬ v ≤ 0 by omega)]
    split_ifs <;> omega
  · rw [hmin]
    rcases sizeParam with _ | v <;>
      simp only [effectiveTotalSize, validateMaxSize, globalMaxDownloadSizeMB] <;>
      split_ifs <;> omega

/-- Witness for C4 at the shipped default configuration `maxsize = 100`:
a request of size `0` yields the 10 MB default, a request of `500` yields
the 100 MB cap, and a request of `37` stays within the bounds. -/
theorem downloadSize_clamp_witness :
    effectiveTotalSize (some 0) (validateMaxSize 100) = 10 * 1024 * 1024 ∧
    effectiveTotalSize (some 500) (validateMaxSize 100)
      = min 100 globalMaxDownloadSizeMB * 1024 * 1024 ∧
    (1024 * 1024 ≤ effectiveTotalSize (some 37) (validateMaxSize 100) ∧
      effectiveTotalSize (some 37) (validateMaxSize 100)
        ≤ min 100 globalMaxDownloadSizeMB * 1024 * 1024) :=
  ⟨(downloadSize_clamp 100 (by decide) (some 0)).1 (Or.inr ⟨0, rfl, by decide⟩),
   (downloadSize_clamp 100 (by decide) (some 500)).2.1 500 rfl (by decide),
   (downloadSize_clamp 100 (by decide) (some 37)).2.2⟩

/-- The write loop performs `⌈T/C⌉` writes whose lengths sum to `T`. -/
theorem writeChunks_count_sum (c : ℕ) (hc : 0 < c) :
    ∀ T, (writeChunks c T).length = (T + c - 1) / c ∧ (writeChunks c T).sum = T := by
  intro T
  induction T using Nat.strong_induction_on with
  | _ T ih =>
    rw [writeChunks]
    by_cases hT : T = 0
    · subst hT
      rw [dif_pos (Or.inl rfl)]
      refine ⟨?_, rfl⟩
      rw [List.length_nil, Nat.div_eq_of_lt (show 0 + c - 1 < c by omega)]
    · have hguard : ¬ (T = 0 ∨ c = 0) := by omega
      rw [dif_neg hguard]
      have hbT : min c T ≤ T := min_le_right c T
      have hb1 : 1 ≤ min c T := by omega
      obtain ⟨ihl, ihs⟩ := ih (T - min c T) (by omega)
      refine ⟨?_, ?_⟩
      · simp only [List.length_cons, ihl]
        rw [show T + c - 1 = (T - 1) + c from by omega, Nat.add_div_right _ hc]
        rcases le_or_lt T c with h | h
        · have hm : min c T = T := by omega
          rw [hm, Nat.div_eq_of_lt (show T - T + c - 1 < c by omega),
            Nat.div_eq_of_lt (show T - 1 < c by omega)]
        · have hm : min c T = c := by omega
          rw [hm, show T - c + c - 1 = T - 1 from by omega]
      · simp only [List.sum_cons, ihs]
        omega

/-- C5: assuming every write succeeds, the download write loop performs
`⌈T/C⌉` writes whose lengths sum to exactly `T` for chunk size `C > 0`;
in particular a request of 10 MB with the 1 MB default chunk size (and the
default 100 MB `maxsize`) yields exactly 10 chunk writes totalling
`10 × 1024 × 1024` bytes. -/
theorem downloadHandler_chunks (T c : ℕ) (hc : 0 < c) :
    (writeChunks c T).length = (T + c - 1) / c ∧
    (writeChunks c T).sum = T ∧
    (downloadWriteSizes (some 10) 100 (1024 * 1024)).length = 10 ∧
    (downloadWriteSizes (some 10) 100 (1024 * 1024)).sum = 10 * 1024 * 1024 := by
  have hconc : downloadWriteSizes (some 10) 100 (1024 * 1024)
      = writeChunks 1048576 10485760 := by
    have h1 : (effectiveChunkSize (1024 * 1024)).toNat = 1048576 := by decide
    have h2 : (effectiveTotalSize (some 10) 100).toNat = 10485760 := by decide
    simp only [downloadWriteSizes, h1, h2]
  refine ⟨(writeChunks_count_sum c hc T).1, (writeChunks_count_sum c hc T).2, ?_, ?_⟩
  · rw [hconc, (writeChunks_count_sum 1048576 (by norm_num) 10485760).1]
  · rw [hconc, (writeChunks_count_sum 1048576 (by norm_num) 10485760).2]

/-- Witness for C5 at `T = 7`, `c = 3`: three writes (`⌈7/3⌉`) summing to
`7`, plus the concrete 10 MB / 1 MB instance. -/
theorem downloadHandler_chunks_witness :
    (writeChunks 3 7).length = (7 + 3 - 1) / 3 ∧
    (writeChunks 3 7).sum = 7 ∧
    (downloadWriteSizes (some 10) 100 (1024 * 1024)).length = 10 ∧
    (downloadWriteSizes (some 10) 100 (1024 * 1024)).sum = 10 * 1024 * 1024 :=
  downloadHandler_chunks 7 3 (by decide)

/-- C6: the latency probe performs `numPings = 10` round trips; the latency
field is left unset (`none`, "not measured") exactly when no trip succeeded,
and with at least one success it is set to the arithmetic mean of the
successful round-trip times. -/
theorem runLatencyTest_spec (outcomes : List (Option ℚ))
    (hlen : outcomes.length = numPings) :
    numPings = 10 ∧
    (runLatencyTest outcomes = none ↔ outcomes.filterMap id = []) ∧
    (1 ≤ (outcomes.filterMap id).length →
      runLatencyTest outcomes
        = some ((outcomes.filterMap id).sum / ((outcomes.filterMap id).length : ℚ))) := by
  refine ⟨rfl, ?_, fun h => ?_⟩
  · simp only [runLatencyTest]
    split_ifs with h0
    · rw [List.length_eq_zero] at h0
      simp [h0]
    · rw [List.length_eq_zero] at h0
      simp [h0]
  · simp only [runLatencyTest]
    rw [if_neg (by omega)]

/-- Witness for C6 with ten failed trips: the latency value is `none`. -/
theorem runLatencyTest_spec_witness :
    runLatencyTest (List.replicate 10 (none : Option ℚ)) = none :=
  ((runLatencyTest_spec (List.replicate 10 none) (by simp [numPings])).2.1).mpr (by simp)

/-- C7 counterexample: when the download sub-test failed (its display shows
`N/A`), the record POSTed to `/save-result` carries `downloadSpeedMbps = 0`
— a finite number, not "not measured": `parseFloat('N/A') || 0` collapses
the unmeasured field to `0`, and the persisted `TestResult` has no
representation of "not measured" at all. -/
theorem finalResults_zero_counterexample :
    (buildFinalResults
      { downloadResult := none, uploadResult := some 5, latencyResult := some 12,
        jitterResult := some 3, lossResult := some 1 }).downloadSpeedMbps = 0 := rfl

/-- C7 (amended): a failed sub-test leaves its field unset in the in-memory
Measurement Run (e.g. the latency probe stores nothing when all trips
fail), but the persisted Result Record does NOT keep "not measured": the
`parseFloat(...) || 0` coercion in `finalizeTest` records `0` for every
field whose display holds no number. -/
theorem notMeasured_fields (d : DisplayState) :
    (∀ outcomes : List (Option ℚ),
      outcomes.filterMap id = [] → runLatencyTest outcomes = none) ∧
    (d.downloadResult = none → (buildFinalResults d).downloadSpeedMbps = 0) ∧
    (d.uploadResult = none → (buildFinalResults d).uploadSpeedMbps = 0) ∧
    (d.latencyResult = none → (buildFinalResults d).latencyMs = 0) ∧
    (d.jitterResult = none → (buildFinalResults d).jitterMs = 0) ∧
    (d.lossResult = none → (buildFinalResults d).packetLossPercent = 0) := by
  refine ⟨fun outcomes h => by simp [runLatencyTest, h], ?_, ?_, ?_, ?_, ?_⟩ <;>
    · intro h
      simp [buildFinalResults, parseFloatOr0, h]

/-- Witness for C7's amended theorem at the all-`N/A` display. -/
theorem notMeasured_fields_witness :
    runLatencyTest ([none, none] : List (Option ℚ)) = none ∧
    (buildFinalResults
      { downloadResult := none, uploadResult := none, latencyResult := none,
        jitterResult := none, lossResult := none }).downloadSpeedMbps = 0 ∧
    (buildFinalResults
      { downloadResult := none, uploadResult := none, latencyResult := none,
        jitterResult := none, lossResult := none }).latencyMs = 0 :=
  ⟨(notMeasured_fields
      { downloadResult := none, uploadResult := none, latencyResult := none,
        jitterResult := none, lossResult := none }).1 [none, none] (by simp),
   (notMeasured_fields
      { downloadResult := none, uploadResult := none, latencyResult := none,
        jitterResult := none, lossResult := none }).2.1 rfl,
   (notMeasured_fields
      { downloadResult := none, uploadResult := none, latencyResult := none,
        jitterResult := none, lossResult := none }).2.2.2.1 rfl⟩

/-- C8: a record saved through `BadgerStore.Save` and then loaded through
`BadgerStore.Load` at the returned id comes back with all five float
measurement fields identical to the values persisted. -/
theorem save_load_roundtrip (db : BadgerDB) (id : String) (now : ℚ) (r : TestResult) :
    ∃ stored,
      badgerLoad (badgerSave db id now r).2 (badgerSave db id now r).1 = some stored ∧
      stored.downloadSpeedMbps = r.downloadSpeedMbps ∧
      stored.uploadSpeedMbps = r.uploadSpeedMbps ∧
      stored.latencyMs = r.latencyMs ∧
      stored.jitterMs = r.jitterMs ∧
      stored.packetLossPercent = r.packetLossPercent :=
  ⟨{ r with timestamp := now }, by simp [badgerSave, badgerLoad], rfl, rfl, rfl, rfl, rfl⟩

/-- C9: the server's data-channel message handler echoes back exactly the
bytes received, for every payload. -/
theorem echoOnMessage_id (msgData : List ℕ) : echoOnMessage msgData = msgData := rfl

/-- C10: `BadgerStore.Save` overwrites whatever timestamp the client
supplied with the server's current time before persisting, while leaving
the five float measurement fields unchanged — the persisted timestamp is
`now` for every client-chosen `clientTs`. -/
theorem badgerSave_overwrites_timestamp (db : BadgerDB) (id : String)
    (now clientTs : ℚ) (r : TestResult) :
    ∃ stored,
      badgerLoad (badgerSave db id now { r with timestamp := clientTs }).2 id
        = some stored ∧
      stored.timestamp = now ∧
      stored.downloadSpeedMbps = r.downloadSpeedMbps ∧
      stored.uploadSpeedMbps = r.uploadSpeedMbps ∧
      stored.latencyMs = r.latencyMs ∧
      stored.jitterMs = r.jitterMs ∧
      stored.packetLossPercent = r.packetLossPercent :=
  ⟨{ r with timestamp := now }, by simp [badgerSave, badgerLoad], rfl, rfl, rfl, rfl, rfl, rfl⟩

end NetSpeed
